import Mathlib

/-!
Verification development for `src/visualization.py`, a one-shot script that
generates synthetic datasets, renders six chart panels on a 2×3 dashboard
canvas, and exports the canvas to a PNG file.

The script's literal data constants are transcribed directly.  Calls into
numpy's seeded pseudo-random source (an external library; the only contract
the program relies on is that it is a deterministic stream once seeded) are
modelled by an explicit pure generator state threaded through the generation
stage, so the generation stage is a function of the seed.
-/

set_option maxRecDepth 8192

namespace Viz

/-- The shared color palette `COLORS` (visualization.py lines 52-53). -/
def COLORS : List String :=
  ["#4e79a7", "#f28e2b", "#e15759", "#76b7b2",
   "#59a14f", "#edc948", "#b07aa1", "#ff9da7"]

/-- Month labels (line 60-61). -/
def months : List String :=
  ["1月", "2月", "3月", "4月", "5月", "6月",
   "7月", "8月", "9月", "10月", "11月", "12月"]

/-- Monthly sales of product A (line 62). -/
def product_a : List Int := [120, 135, 148, 160, 175, 190, 210, 225, 198, 180, 165, 200]

/-- Monthly sales of product B (line 63). -/
def product_b : List Int := [90, 100, 115, 125, 140, 155, 145, 160, 170, 150, 135, 155]

/-- Monthly sales of product C (line 64). -/
def product_c : List Int := [60, 75, 80, 95, 105, 110, 120, 130, 125, 115, 100, 118]

/-- Department names (line 67). -/
def departments : List String := ["研发", "市场", "销售", "运营", "客服"]

/-- Quarterly revenue per department (lines 68-71). -/
def q1 : List Int := [320, 210, 450, 180, 120]

def q2 : List Int := [350, 240, 480, 200, 135]

def q3 : List Int := [310, 260, 510, 190, 140]

def q4 : List Int := [380, 280, 530, 220, 150]

/-- Market share labels (line 79). -/
def market_labels : List String := ["产品A", "产品B", "产品C", "产品D", "其他"]

/-- Market share sizes (line 80). -/
def market_sizes : List Int := [35, 25, 20, 12, 8]

/-- Correlation heatmap axis labels (line 83). -/
def corr_labels : List String := ["销售额", "利润", "客流量", "广告投入", "满意度", "退货率"]

/-- The 6×6 correlation matrix constant `corr_data` (lines 84-91). -/
def corr_data : List (List ℚ) :=
  [[1, 85/100, 72/100, 65/100, 45/100, -30/100],
   [85/100, 1, 60/100, 50/100, 55/100, -40/100],
   [72/100, 60/100, 1, 70/100, 35/100, -20/100],
   [65/100, 50/100, 70/100, 1, 25/100, -15/100],
   [45/100, 55/100, 35/100, 25/100, 1, -60/100],
   [-30/100, -40/100, -20/100, -15/100, -60/100, 1]]

/-- City names for the box-plot panel (line 94). -/
def cities : List String := ["北京", "上海", "广州", "深圳", "杭州"]

/-- Per-city normal-distribution means (line 98). -/
def cityBases : List ℚ := [65, 60, 35, 55, 40]

/-- Per-city normal-distribution spreads (line 98). -/
def citySpreads : List ℚ := [15, 12, 8, 13, 10]

/-- The three scatter categories (lines 76 and 147). -/
def scatterCats : List String := ["线上", "线下", "社交媒体"]

/-!
## The seeded pseudo-random source

`np.random.seed(42)` followed by `uniform` / `normal` / `choice` draws.
numpy itself is outside the repository, so the stream is modelled by a pure
linear-congruential state: what the claims rely on is that the stream is a
deterministic function of the seed and that `choice` only returns elements
of the supplied list.
-/

/-- State of the pseudo-random source. -/
structure RNG where
  state : Nat
deriving Repr, DecidableEq

/-- Seeding the source (line 55: `np.random.seed(42)`). -/
def RNG.ofSeed (n : Nat) : RNG := ⟨n⟩

/-- One raw step of the modelled stream. -/
def RNG.next (g : RNG) : Nat × RNG :=
  let s := (1103515245 * g.state + 12345) % 2147483648
  (s, ⟨s⟩)

/-- One draw of `np.random.uniform(10, 100)`: a grid point of the interval
[10, 100], kept as its integer numerator over the fixed denominator 9000
(the value is `(90000 + 90 * (r % 9001)) / 9000 = 10 + (r % 9001) / 100`). -/
def RNG.uniformK (g : RNG) : ℤ × RNG :=
  let (r, g1) := g.next
  ((90000 : ℤ) + 90 * ((r % 9001 : Nat) : ℤ), g1)

/-- One draw of `np.random.normal(loc, scale)`. -/
def RNG.normal (g : RNG) (loc scale : ℚ) : ℚ × RNG :=
  let (r, g1) := g.next
  (loc + scale * (((r % 2001 : Nat) : ℚ) - 1000) / 500, g1)

/-- One draw of `np.random.choice(xs)`: always an element of `xs`. -/
def RNG.choice (g : RNG) (xs : List String) : String × RNG :=
  let (r, g1) := g.next
  (xs.getD (r % xs.length) "", g1)

/-- `np.random.uniform(10, 100, n)`, as scaled integer numerators. -/
def RNG.uniformKList : RNG → Nat → List ℤ × RNG
  | g, 0 => ([], g)
  | g, n + 1 =>
    let (x, g1) := g.uniformK
    let (xs, g2) := g1.uniformKList n
    (x :: xs, g2)

/-- `np.random.normal(loc, scale, n)`. -/
def RNG.normalList : RNG → ℚ → ℚ → Nat → List ℚ × RNG
  | g, _, _, 0 => ([], g)
  | g, loc, scale, n + 1 =>
    let (x, g1) := g.normal loc scale
    let (xs, g2) := g1.normalList loc scale n
    (x :: xs, g2)

/-- `np.random.choice(xs, n)`. -/
def RNG.choiceList : RNG → List String → Nat → List String × RNG
  | g, _, 0 => ([], g)
  | g, xs, n + 1 =>
    let (c, g1) := g.choice xs
    let (cs, g2) := g1.choiceList xs n
    (c :: cs, g2)

/-- The dict comprehension building `house_prices` (lines 95-100): for each
city, 200 normal samples with the city's base and spread. -/
def genPrices : RNG → List (String × ℚ × ℚ) → List (String × List ℚ) × RNG
  | g, [] => ([], g)
  | g, (c, base, spread) :: rest =>
    let (xs, g1) := g.normalList base spread 200
    let (ys, g2) := genPrices g1 rest
    ((c, xs) :: ys, g2)

/-- The random datasets produced by the generation stage. -/
structure GenData where
  ad_spend : List ℚ
  sales : List ℚ
  categories : List String
  house_prices : List (String × List ℚ)
deriving Repr, DecidableEq

/-- Stage 1 of the generation (line 74): the 80 ad-spend draws, as scaled
integer numerators, together with the source state they leave behind. -/
def gAdK (seed : Nat) : List ℤ × RNG :=
  (RNG.ofSeed seed).uniformKList 80

/-- The ad-spend array: `np.random.uniform(10, 100, 80)`. -/
def adSpend (seed : Nat) : List ℚ :=
  (gAdK seed).1.map (fun k : ℤ => (k : ℚ) / 9000)

/-- Stage 2 (line 75): the 80 noise draws `np.random.normal(0, 20, 80)`. -/
def gNoise (seed : Nat) : List ℚ × RNG :=
  (gAdK seed).2.normalList 0 20 80

/-- Stage 3 (line 76): the 80 category draws. -/
def gCats (seed : Nat) : List String × RNG :=
  (gNoise seed).2.choiceList scatterCats 80

/-- Stage 4 (lines 95-100): the five city price samples. -/
def gPrices (seed : Nat) : List (String × List ℚ) × RNG :=
  genPrices (gCats seed).2 (List.zip cities (List.zip cityBases citySpreads))

/-- The synthetic data generation stage as a function of the seed
(lines 55, 74-76, 95-100): seed the source, draw 80 uniform ad-spend values
over [10,100], compute sales as `ad_spend * 2.5` plus 80 normal noise draws,
draw 80 category labels, then the five city price samples. -/
def generate (seed : Nat) : GenData :=
  ⟨adSpend seed,
   List.zipWith (fun a n => a * (5/2 : ℚ) + n) (adSpend seed) (gNoise seed).1,
   (gCats seed).1,
   (gPrices seed).1⟩

/-!
## Panel renderers

Each panel is embedded as a record of the literal arguments the script passes
to the plotting primitives: the renderers themselves are library calls, so the
record is exactly the data the program hands over.
-/

/-- One `ax.plot` call of the line panel. -/
structure SeriesPlot where
  xs : List String
  ys : List Int
  marker : String
  color : String
  label : String
deriving Repr, DecidableEq

/-- One `ax.fill_between` call of the line panel. -/
structure FillSpec where
  xs : List String
  ys : List Int
  alpha : ℚ
  color : String
deriving Repr, DecidableEq

/-- The line panel `ax1` configuration. -/
structure LinePanel where
  plots : List SeriesPlot
  fills : List FillSpec
  legend_loc : String
  xtick_rotation : ℚ
deriving Repr, DecidableEq

/-- The line panel as built by lines 113-125: three `plot` calls, two
`fill_between` calls (product A and product B only), legend at upper left,
x tick labels rotated 45 degrees. -/
def ax1 : LinePanel :=
  { plots :=
      [⟨months, product_a, "o", COLORS.getD 0 "", "产品 A"⟩,
       ⟨months, product_b, "s", COLORS.getD 1 "", "产品 B"⟩,
       ⟨months, product_c, "^", COLORS.getD 2 "", "产品 C"⟩],
    fills :=
      [⟨months, product_a, 8/100, COLORS.getD 0 ""⟩,
       ⟨months, product_b, 8/100, COLORS.getD 1 ""⟩],
    legend_loc := "upper left",
    xtick_rotation := 45 }

/-- The scatter panel draws, for each of the three categories, the points
whose label equals that category (lines 147-150).  `scatterGroup` is the list
of (ad_spend, sales) pairs selected by the boolean mask `categories == cat`. -/
def scatterGroup (d : GenData) (cat : String) : List (ℚ × ℚ) :=
  ((List.zip d.ad_spend d.sales).zip d.categories).filterMap
    (fun p => if p.2 = cat then some p.1 else none)

/-- Number of sample points, as a rational. -/
def nQ (pts : List (ℚ × ℚ)) : ℚ := pts.length

/-- Sum of the x coordinates. -/
def sX (pts : List (ℚ × ℚ)) : ℚ := (pts.map Prod.fst).sum

/-- Sum of the y coordinates. -/
def sY (pts : List (ℚ × ℚ)) : ℚ := (pts.map Prod.snd).sum

/-- Sum of the squared x coordinates. -/
def sXX (pts : List (ℚ × ℚ)) : ℚ := (pts.map (fun p => p.1 * p.1)).sum

/-- Sum of the products x*y. -/
def sXY (pts : List (ℚ × ℚ)) : ℚ := (pts.map (fun p => p.1 * p.2)).sum

/-- Sum of the squared y coordinates. -/
def sYY (pts : List (ℚ × ℚ)) : ℚ := (pts.map (fun p => p.2 * p.2)).sum

/-- The discriminant of the degree-1 normal equations. -/
def disc (pts : List (ℚ × ℚ)) : ℚ := nQ pts * sXX pts - sX pts * sX pts

/-- `np.polyfit(xs, ys, 1)` on zipped points: the degree-1 least-squares
coefficients, by the normal equations (slope, intercept). -/
def polyfit1 (pts : List (ℚ × ℚ)) : ℚ × ℚ :=
  ((nQ pts * sXY pts - sX pts * sY pts) / disc pts,
   (sY pts * sXX pts - sX pts * sXY pts) / disc pts)

/-- Sum of squared residuals of the line `y = a*x + b` on `pts`. -/
def SSE (pts : List (ℚ × ℚ)) (a b : ℚ) : ℚ :=
  (pts.map (fun p => (p.2 - (a * p.1 + b)) ^ 2)).sum

/-- `np.linspace(a, b, n)`. -/
def linspace (a b : ℚ) (n : Nat) : List ℚ :=
  (List.range n).map (fun i : Nat => a + (b - a) * (i : ℚ) / ((n : ℚ) - 1))

/-- `arr.min()` on a numpy array (nonempty list). -/
def minQ : List ℚ → ℚ
  | [] => 0
  | x :: xs => xs.foldl min x

/-- `arr.max()` on a numpy array (nonempty list). -/
def maxQ : List ℚ → ℚ
  | [] => 0
  | x :: xs => xs.foldl max x

/-- The trend line drawn by lines 152-155: coefficients from
`np.polyfit(ad_spend, sales, 1)`, evaluated on
`np.linspace(ad_spend.min(), ad_spend.max(), 100)`, dashed, grey. -/
structure TrendLine where
  coeffs : ℚ × ℚ
  x_line : List ℚ
  y_line : List ℚ
  linestyle : String
  color : String
deriving Repr, DecidableEq

/-- The scatter panel's trend line for the data generated from `seed`. -/
def trendLine (seed : Nat) : TrendLine :=
  let d := generate seed
  let z := polyfit1 (List.zip d.ad_spend d.sales)
  let xl := linspace (minQ d.ad_spend) (maxQ d.ad_spend) 100
  ⟨z, xl, xl.map (fun x => z.1 * x + z.2), "--", "#888888"⟩

/-- The pie panel `ax4` configuration (lines 164-175). -/
structure PiePanel where
  sizes : List Int
  labels : List String
  autopct : String
  startangle : Int
  colors : List String
  explode : List ℚ
  edgecolor : String
  edge_linewidth : ℚ
deriving Repr, DecidableEq

/-- The pie panel as built by lines 164-175. -/
def ax4 : PiePanel :=
  { sizes := market_sizes, labels := market_labels, autopct := "%1.1f%%",
    startangle := 140, colors := COLORS.take 5,
    explode := [5/100, 5/100, 5/100, 5/100, 5/100],
    edgecolor := "white", edge_linewidth := 2 }

/-- Rounding to one decimal place, as the `%1.1f` format does. -/
def round1 (x : ℚ) : ℚ := (round (10 * x) : ℤ) / 10

/-- The percentage annotations the pie step produces: matplotlib hands
`autopct` the fraction `size / total * 100` for each wedge. -/
def pieAutopcts (sizes : List Int) : List ℚ :=
  sizes.map (fun s : ℤ => round1 ((s : ℚ) / ((sizes.map (fun t : ℤ => (t : ℚ))).sum) * 100))

/-- The box-plot panel `ax6` configuration (lines 194-206). -/
structure BoxPanel where
  data : List (List ℚ)
  tick_labels : List String
  notch : Bool
  patch_artist : Bool
  box_colors : List String
deriving Repr, DecidableEq

/-- Dict access `house_prices[c]`. -/
def pricesFor (d : GenData) (c : String) : List ℚ :=
  ((d.house_prices.find? (fun p => p.1 = c)).map Prod.snd).getD []

/-- The box-plot panel as built by lines 194-206: data re-read from the dict
in `cities` order, tick labels the city names, notched, boxes filled with the
first five palette colors. -/
def ax6 (seed : Nat) : BoxPanel :=
  let d := generate seed
  { data := cities.map (pricesFor d), tick_labels := cities,
    notch := true, patch_artist := true, box_colors := COLORS.take 5 }

/-!
## Font configuration and export
-/

/-- The well-known font path (line 32). -/
def font_path : String := "/usr/share/fonts/truetype/wqy/wqy-microhei.ttc"

/-- Outcome of the font configuration branch (lines 32-37). -/
structure FontConfig where
  registered : List String
  chinese_font : String
deriving Repr, DecidableEq

/-- The font configuration as a function of whether the font file exists:
if it does, register it and select the specific family; otherwise fall back
to the generic family.  Both branches return a configuration (the code can
raise no error here). -/
def fontSetup (fontExists : Bool) : FontConfig :=
  if fontExists then ⟨[font_path], "WenQuanYi Micro Hei"⟩
  else ⟨[], "sans-serif"⟩

/-- The exporter's literal arguments (lines 103 and 211-213). -/
structure ExportSpec where
  path : String
  dpi : Nat
  figsize : Nat × Nat
  facecolor : String
  bbox_inches : String
deriving Repr, DecidableEq

/-- The export call: one `savefig` at the fixed relative path, 150 dpi, from
the 22×15 figure, with the figure's solid background color and tight
bounding box. -/
def exportSpec : ExportSpec :=
  { path := "visualization_dashboard.png", dpi := 150, figsize := (22, 15),
    facecolor := "#f8f9fa", bbox_inches := "tight" }

/-- The two completion lines printed to standard output (lines 215-216). -/
def outputLines : List String :=
  ["可视化仪表板已保存到: " ++ exportSpec.path,
   "图片尺寸: 22x15 英寸, DPI: 150"]

/-- Entry (i, j) of the correlation matrix. -/
def corrEntry (i j : Fin 6) : ℚ := (corr_data.getD i []).getD j 0

/-- A label equals exactly one of the three scatter categories. -/
def exactlyOneCat (c : String) : Prop :=
  (c = "线上" ∧ c ≠ "线下" ∧ c ≠ "社交媒体") ∨
  (c ≠ "线上" ∧ c = "线下" ∧ c ≠ "社交媒体") ∨
  (c ≠ "线上" ∧ c ≠ "线下" ∧ c = "社交媒体")

instance (c : String) : Decidable (exactlyOneCat c) := by
  unfold exactlyOneCat; infer_instance

/-!
## Basic lemmas about the generator
-/

theorem uniformKList_length (g : RNG) (n : Nat) : (g.uniformKList n).1.length = n := by
  induction n generalizing g with
  | zero => rfl
  | succ n ih => simpa [RNG.uniformKList] using ih _

theorem normalList_length (g : RNG) (loc scale : ℚ) (n : Nat) :
    (g.normalList loc scale n).1.length = n := by
  induction n generalizing g with
  | zero => rfl
  | succ n ih => simpa [RNG.normalList] using ih _

theorem choiceList_length (g : RNG) (xs : List String) (n : Nat) :
    (g.choiceList xs n).1.length = n := by
  induction n generalizing g with
  | zero => rfl
  | succ n ih => simpa [RNG.choiceList] using ih _

theorem adSpend_length (s : Nat) : (adSpend s).length = 80 := by
  rw [adSpend, List.length_map, gAdK, uniformKList_length]

theorem sales_length (s : Nat) : (generate s).sales.length = 80 := by
  show (List.zipWith _ (adSpend s) (gNoise s).1).length = 80
  rw [List.length_zipWith, adSpend_length]
  simp [gNoise, normalList_length]

theorem categories_length (s : Nat) : (generate s).categories.length = 80 := by
  simp [generate, gCats, choiceList_length]

theorem genPrices_length (g : RNG) (l : List (String × ℚ × ℚ)) :
    (genPrices g l).1.length = l.length := by
  induction l generalizing g with
  | nil => rfl
  | cons p rest ih => cases p with
    | mk c bs => simpa [genPrices] using ih _

theorem house_prices_length (s : Nat) : (generate s).house_prices.length = 5 := by
  show (gPrices s).1.length = 5
  rw [gPrices, genPrices_length]
  rfl

theorem choice_mem_scatterCats (g : RNG) : (g.choice scatterCats).1 ∈ scatterCats := by
  have h : (g.next).1 % scatterCats.length < scatterCats.length := by
    exact Nat.mod_lt _ (by decide)
  simp only [RNG.choice]
  rw [List.getD_eq_getElem _ _ h]
  exact List.getElem_mem _

theorem choiceList_mem_scatterCats (g : RNG) (n : Nat) :
    ∀ c ∈ (g.choiceList scatterCats n).1, c ∈ scatterCats := by
  induction n generalizing g with
  | zero => intro c hc; simp [RNG.choiceList] at hc
  | succ n ih =>
    intro c hc
    simp only [RNG.choiceList] at hc
    rcases List.mem_cons.mp hc with h | h
    · exact h ▸ choice_mem_scatterCats g
    · exact ih _ c h

theorem mem_scatterCats_exactlyOne (c : String) (h : c ∈ scatterCats) :
    exactlyOneCat c := by
  rcases List.mem_cons.mp h with h1 | h1
  · subst h1; decide
  rcases List.mem_cons.mp h1 with h2 | h2
  · subst h2; decide
  rcases List.mem_cons.mp h2 with h3 | h3
  · subst h3; decide
  · simp at h3

theorem partition_three (ps : List ((ℚ × ℚ) × String))
    (h : ∀ x ∈ ps, exactlyOneCat x.2) :
    (ps.filterMap (fun p => if p.2 = "线上" then some p.1 else none)).length +
    (ps.filterMap (fun p => if p.2 = "线下" then some p.1 else none)).length +
    (ps.filterMap (fun p => if p.2 = "社交媒体" then some p.1 else none)).length =
    ps.length := by
  induction ps with
  | nil => simp
  | cons p ps ih =>
    have hp := h p (List.mem_cons_self p ps)
    have hr := ih (fun x hx => h x (List.mem_cons_of_mem p hx))
    rcases hp with ⟨h1, h2, h3⟩ | ⟨h1, h2, h3⟩ | ⟨h1, h2, h3⟩ <;>
      simp [List.filterMap_cons, h1, h2, h3] <;> omega

theorem genPrices_cons_eq (g : RNG) (c : String) (base spread : ℚ)
    (rest : List (String × ℚ × ℚ)) :
    genPrices g ((c, base, spread) :: rest) =
      ((c, (g.normalList base spread 200).1) ::
        (genPrices (g.normalList base spread 200).2 rest).1,
       (genPrices (g.normalList base spread 200).2 rest).2) := by
  rcases hn : g.normalList base spread 200 with ⟨xs, g1⟩
  rcases hr : genPrices g1 rest with ⟨ys, g2⟩
  simp [genPrices, hn, hr]

theorem genPrices_map_fst (g : RNG) (l : List (String × ℚ × ℚ)) :
    (genPrices g l).1.map Prod.fst = l.map Prod.fst := by
  induction l generalizing g with
  | nil => rfl
  | cons p rest ih =>
    obtain ⟨c, base, spread⟩ := p
    rw [genPrices_cons_eq]
    simp [ih]

theorem genPrices_snd_length (g : RNG) (l : List (String × ℚ × ℚ)) :
    ∀ x ∈ (genPrices g l).1, x.2.length = 200 := by
  induction l generalizing g with
  | nil => intro x hx; simp [genPrices] at hx
  | cons p rest ih =>
    obtain ⟨c, base, spread⟩ := p
    intro x hx
    rw [genPrices_cons_eq] at hx
    rcases List.mem_cons.mp hx with h | h
    · rw [h]; exact normalList_length _ _ _ _
    · exact ih _ x h

theorem map_find_eq_snd (al : List (String × List ℚ))
    (h : (al.map Prod.fst).Nodup) :
    (al.map Prod.fst).map
      (fun c => ((al.find? (fun p => p.1 = c)).map Prod.snd).getD []) =
    al.map Prod.snd := by
  induction al with
  | nil => rfl
  | cons p rest ih =>
    obtain ⟨k, v⟩ := p
    simp only [List.map_cons] at h ⊢
    have hk : k ∉ rest.map Prod.fst := (List.nodup_cons.mp h).1
    have hrest := ih (List.nodup_cons.mp h).2
    congr 1
    · simp [List.find?_cons]
    · rw [← hrest]
      apply List.map_congr_left
      intro c hc
      have hne : ¬ (k = c) := fun he => hk (he ▸ hc)
      simp [List.find?_cons, hne]

theorem house_prices_map_fst (s : Nat) :
    (generate s).house_prices.map Prod.fst = cities := by
  show (gPrices s).1.map Prod.fst = cities
  rw [gPrices, genPrices_map_fst]
  rfl

/-!
## Least-squares lemmas for the trend line
-/

theorem sse_expand (pts : List (ℚ × ℚ)) (a b : ℚ) :
    SSE pts a b = sYY pts + a * a * sXX pts + nQ pts * (b * b)
      + 2 * (a * b) * sX pts - 2 * a * sXY pts - 2 * b * sY pts := by
  induction pts with
  | nil => simp [SSE, sYY, sXX, nQ, sX, sXY, sY]
  | cons p ps ih =>
    simp only [SSE, sYY, sXX, nQ, sX, sXY, sY, List.map_cons, List.sum_cons,
      List.length_cons] at ih ⊢
    push_cast
    nlinarith [ih]

theorem sse_min (pts : List (ℚ × ℚ)) (hd : 0 < disc pts) (a b : ℚ) :
    SSE pts (polyfit1 pts).1 (polyfit1 pts).2 ≤ SSE pts a b := by
  have hn : 0 < nQ pts := by
    rcases Nat.eq_zero_or_pos pts.length with h0 | h0
    · rw [List.length_eq_zero.mp h0] at hd
      simp [disc, nQ, sX, sXX] at hd
    · unfold nQ; exact_mod_cast h0
  have hd0 : nQ pts * sXX pts - sX pts * sX pts ≠ 0 := by
    simpa [disc] using ne_of_gt hd
  have hA : (polyfit1 pts).1 = (nQ pts * sXY pts - sX pts * sY pts) / disc pts := rfl
  have hB : (polyfit1 pts).2 = (sY pts * sXX pts - sX pts * sXY pts) / disc pts := rfl
  have key : nQ pts * (SSE pts a b - SSE pts (polyfit1 pts).1 (polyfit1 pts).2)
      = (sX pts * (a - (polyfit1 pts).1) + nQ pts * (b - (polyfit1 pts).2)) ^ 2
        + disc pts * (a - (polyfit1 pts).1) ^ 2 := by
    rw [hA, hB, sse_expand, sse_expand]
    simp only [disc]
    field_simp
    ring
  have h2 : 0 ≤ nQ pts * (SSE pts a b - SSE pts (polyfit1 pts).1 (polyfit1 pts).2) := by
    rw [key]
    have := sq_nonneg (sX pts * (a - (polyfit1 pts).1) + nQ pts * (b - (polyfit1 pts).2))
    have := mul_nonneg (le_of_lt hd) (sq_nonneg (a - (polyfit1 pts).1))
    linarith
  nlinarith [h2, hn]

theorem foldl_min_le (xs : List ℚ) (x : ℚ) : xs.foldl min x ≤ x := by
  induction xs generalizing x with
  | nil => exact le_refl x
  | cons y ys ih => exact le_trans (ih (min x y)) (min_le_left x y)

theorem le_foldl_max (xs : List ℚ) (x : ℚ) : x ≤ xs.foldl max x := by
  induction xs generalizing x with
  | nil => exact le_refl x
  | cons y ys ih => exact le_trans (le_max_left x y) (ih (max x y))

theorem minQ_le_maxQ (l : List ℚ) (h : l ≠ []) : minQ l ≤ maxQ l := by
  cases l with
  | nil => exact absurd rfl h
  | cons x xs => exact le_trans (foldl_min_le xs x) (le_foldl_max xs x)

theorem linspace_getD (a b : ℚ) (n k : Nat) (hk : k < n) :
    (linspace a b n).getD k 0 = a + (b - a) * (k : ℚ) / ((n : ℚ) - 1) := by
  have hlen : k < (linspace a b n).length := by
    simpa [linspace] using hk
  rw [List.getD_eq_getElem _ _ hlen]
  simp [linspace]

theorem linspace_mem_bounds (a b : ℚ) (hab : a ≤ b) (x : ℚ)
    (hx : x ∈ linspace a b 100) : a ≤ x ∧ x ≤ b := by
  obtain ⟨i, hi, hfx⟩ := List.mem_map.mp hx
  rw [List.mem_range] at hi
  rw [← hfx]
  have h0 : (0 : ℚ) ≤ (i : ℚ) := Nat.cast_nonneg i
  have h99 : (i : ℚ) ≤ 99 := by
    have : i ≤ 99 := Nat.lt_succ_iff.mp hi
    exact_mod_cast this
  have hba : (0 : ℚ) ≤ b - a := sub_nonneg.mpr hab
  have hc : ((100 : Nat) : ℚ) - 1 = 99 := by norm_num
  rw [hc]
  constructor
  · have : (0 : ℚ) ≤ (b - a) * i / 99 :=
      div_nonneg (mul_nonneg hba h0) (by norm_num)
    linarith
  · have h1 : (b - a) * i ≤ (b - a) * 99 := by
      nlinarith [mul_nonneg hba (by linarith : (0:ℚ) ≤ 99 - i)]
    have : (b - a) * i / 99 ≤ b - a := by
      rw [div_le_iff₀ (by norm_num : (0:ℚ) < 99)]
      nlinarith [h1]
    linarith

theorem sum_map_cast_div (l : List ℤ) (c : ℚ) :
    (l.map (fun k : ℤ => (k : ℚ) / c)).sum = (l.sum : ℚ) / c := by
  induction l with
  | nil => simp
  | cons x xs ih =>
    simp only [List.map_cons, List.sum_cons, ih]
    push_cast
    ring

theorem sum_map_cast_div_sq (l : List ℤ) (c : ℚ) :
    ((l.map (fun k : ℤ => (k : ℚ) / c)).map (fun x => x * x)).sum
      = ((l.map (fun k : ℤ => k * k)).sum : ℚ) / (c * c) := by
  induction l with
  | nil => simp
  | cons x xs ih =>
    simp only [List.map_cons, List.sum_cons, ih]
    push_cast
    ring

theorem disc_eq (s : Nat) :
    disc (List.zip (generate s).ad_spend (generate s).sales)
      = ((80 * ((gAdK s).1.map (fun k : ℤ => k * k)).sum
          - (gAdK s).1.sum * (gAdK s).1.sum : ℤ) : ℚ) / 81000000 := by
  have hlen : (generate s).ad_spend.length ≤ (generate s).sales.length := by
    rw [show (generate s).ad_spend.length = 80 from adSpend_length s, sales_length s]
  have hfst : (List.zip (generate s).ad_spend (generate s).sales).map Prod.fst
      = (generate s).ad_spend := List.map_fst_zip _ _ hlen
  have hlenz : ((List.zip (generate s).ad_spend (generate s).sales)).length = 80 := by
    rw [List.length_zip, show (generate s).ad_spend.length = 80 from adSpend_length s,
      sales_length s]
    decide
  have hxx : (List.zip (generate s).ad_spend (generate s).sales).map (fun p => p.1 * p.1)
      = ((List.zip (generate s).ad_spend (generate s).sales).map Prod.fst).map
          (fun x => x * x) := by
    rw [List.map_map]
    rfl
  have hcast : ((80 * ((gAdK s).1.map (fun k : ℤ => k * k)).sum
      - (gAdK s).1.sum * (gAdK s).1.sum : ℤ) : ℚ)
      = 80 * (((gAdK s).1.map (fun k : ℤ => k * k)).sum : ℚ)
        - ((gAdK s).1.sum : ℚ) * ((gAdK s).1.sum : ℚ) := by
    push_cast
    ring
  unfold disc nQ sX sXX
  rw [hxx, hfst, hlenz,
    show (generate s).ad_spend = adSpend s from rfl, adSpend,
    sum_map_cast_div, sum_map_cast_div_sq, hcast]
  norm_num
  ring

theorem disc42_pos : 0 < disc (List.zip (generate 42).ad_spend (generate 42).sales) := by
  rw [disc_eq]
  have h : (0 : ℤ) < 80 * ((gAdK 42).1.map (fun k : ℤ => k * k)).sum
      - (gAdK 42).1.sum * (gAdK 42).1.sum := by decide
  have hq : (0 : ℚ) < ((80 * ((gAdK 42).1.map (fun k : ℤ => k * k)).sum
      - (gAdK 42).1.sum * (gAdK 42).1.sum : ℤ) : ℚ) := by exact_mod_cast h
  positivity

/-!
## Claim theorems
-/

/-- C1: the synthetic data generation stage is a deterministic function of
the fixed seed 42 — any two runs produce element-wise equal ad-spend, sales,
and category-label arrays and equal city price samples (of which there are
five). -/
theorem C1_generation_deterministic (d1 d2 : GenData)
    (h1 : d1 = generate 42) (h2 : d2 = generate 42) :
    d1.ad_spend = d2.ad_spend ∧ d1.sales = d2.sales ∧
    d1.categories = d2.categories ∧ d1.house_prices = d2.house_prices ∧
    d1.house_prices.length = 5 := by
  subst h1; subst h2
  exact ⟨rfl, rfl, rfl, rfl, house_prices_length 42⟩

/-- C1 witness: the determinism theorem applied to two runs at seed 42. -/
theorem C1_generation_deterministic_w :
    (generate 42).ad_spend = (generate 42).ad_spend ∧
    (generate 42).sales = (generate 42).sales ∧
    (generate 42).categories = (generate 42).categories ∧
    (generate 42).house_prices = (generate 42).house_prices ∧
    (generate 42).house_prices.length = 5 :=
  C1_generation_deterministic (generate 42) (generate 42) rfl rfl

/-- C4: for every seed, all 80 scatter labels are drawn from the fixed
3-element category set — each label equals exactly one of the three — and
consequently the three per-category groups the scatter renderer plots
partition the 80 (ad_spend, sales) pairs. -/
theorem C4_labels_partition (s : Nat) :
    (generate s).categories.length = 80 ∧
    (∀ c ∈ (generate s).categories, exactlyOneCat c) ∧
    (scatterGroup (generate s) "线上").length +
    (scatterGroup (generate s) "线下").length +
    (scatterGroup (generate s) "社交媒体").length = 80 := by
  refine ⟨categories_length s, ?_, ?_⟩
  · intro c hc
    exact mem_scatterCats_exactlyOne c
      (choiceList_mem_scatterCats _ 80 c hc)
  · have hlen : ((List.zip (generate s).ad_spend (generate s).sales).zip
        (generate s).categories).length = 80 := by
      rw [List.length_zip, List.length_zip,
        show (generate s).ad_spend.length = 80 from adSpend_length s,
        sales_length s, categories_length s]
      decide
    have hmem : ∀ x ∈ (List.zip (generate s).ad_spend (generate s).sales).zip
        (generate s).categories, exactlyOneCat x.2 := by
      intro x hx
      have := (List.of_mem_zip hx).2
      exact mem_scatterCats_exactlyOne x.2
        (choiceList_mem_scatterCats _ 80 x.2 this)
    have := partition_three _ hmem
    rw [hlen] at this
    exact this

/-- C2: the three monthly series each have exactly 12 values, co-indexed with
the 12 month labels, and the quarterly revenue table has exactly 5 categories
(departments) with one value per department in each of the four quarter
arrays. -/
theorem C2_dataset_shapes :
    months.length = 12 ∧
    product_a.length = months.length ∧
    product_b.length = months.length ∧
    product_c.length = months.length ∧
    departments.length = 5 ∧
    [q1, q2, q3, q4].length = 4 ∧
    [q1, q2, q3, q4].map List.length = [5, 5, 5, 5] := by
  decide

/-- C3: the correlation matrix constant is 6×6, symmetric, has exactly 1 at
every diagonal position, and every entry lies in [-1, 1]. -/
theorem C3_corr_matrix :
    corr_data.length = 6 ∧
    (∀ i : Fin 6, (corr_data.getD i []).length = 6) ∧
    (∀ i j : Fin 6, corrEntry i j = corrEntry j i) ∧
    (∀ i : Fin 6, corrEntry i i = 1) ∧
    (∀ i j : Fin 6, -1 ≤ corrEntry i j ∧ corrEntry i j ≤ 1) := by
  refine ⟨rfl, ?_, ?_, ?_, ?_⟩
  · intro i; fin_cases i <;> rfl
  · intro i j; fin_cases i <;> fin_cases j <;> norm_num [corrEntry, corr_data]
  · intro i; fin_cases i <;> norm_num [corrEntry, corr_data]
  · intro i j; fin_cases i <;> fin_cases j <;> norm_num [corrEntry, corr_data]

/-- C5 counterexample: it is not the case that every plotted series of the
line panel has a fill drawn under it — the fill calls cover only product A
and product B, not product C. -/
theorem C5_not_fill_under_each :
    ¬ (∀ p ∈ ax1.plots, ∃ f ∈ ax1.fills, f.ys = p.ys) := by
  decide

/-- C5 (amended): the line panel plots the three monthly series with
pairwise-distinct markers and colors, draws a light fill (alpha 0.08) under
the first two curves (products A and B) with the matching series colors,
rotates the category-axis tick labels by 45 degrees, and places the legend
at the upper left. -/
theorem C5_line_panel :
    ax1.plots.map SeriesPlot.ys = [product_a, product_b, product_c] ∧
    (ax1.plots.map SeriesPlot.marker).Nodup ∧
    (ax1.plots.map SeriesPlot.color).Nodup ∧
    ax1.fills.map FillSpec.ys = [product_a, product_b] ∧
    ax1.fills.map FillSpec.alpha = [8/100, 8/100] ∧
    ax1.fills.map FillSpec.color =
      [(ax1.plots.map SeriesPlot.color).getD 0 "", (ax1.plots.map SeriesPlot.color).getD 1 ""] ∧
    ax1.xtick_rotation = 45 ∧
    ax1.legend_loc = "upper left" := by
  refine ⟨by decide, by decide, by decide, by decide, rfl, by decide, rfl, rfl⟩

/-- C6: the pie step draws one wedge per market-share value — exactly 5 —
with a uniform explode offset of 0.05 and white wedge borders, and the
percentage annotations (each value over the total, times 100, rounded to the
one decimal shown by the `%1.1f%%` format) sum to exactly 100. -/
theorem C6_pie_step :
    ax4.sizes.length = 5 ∧
    ax4.explode = List.replicate 5 (5/100) ∧
    ax4.edgecolor = "white" ∧
    ax4.edge_linewidth = 2 ∧
    (pieAutopcts ax4.sizes).length = 5 ∧
    (pieAutopcts ax4.sizes).sum = 100 := by
  refine ⟨by decide, rfl, rfl, rfl, by decide, ?_⟩
  simp [pieAutopcts, ax4, market_sizes, round1, round_eq]
  norm_num

/-- C10: the box-plot panel keeps cities, samples, labels, and colors
co-indexed — the data list read back from the dict in city order is exactly
the per-city sample lists in generation order (each of length 200), the tick
labels are the city names, the box fills are the first five palette colors,
and the boxes are notched. -/
theorem C10_box_panel (s : Nat) :
    (ax6 s).notch = true ∧
    (ax6 s).patch_artist = true ∧
    (ax6 s).tick_labels = cities ∧
    (ax6 s).box_colors = COLORS.take 5 ∧
    (generate s).house_prices.map Prod.fst = cities ∧
    (ax6 s).data = (generate s).house_prices.map Prod.snd ∧
    (ax6 s).data.length = 5 ∧
    (∀ l ∈ (ax6 s).data, l.length = 200) := by
  have hfst := house_prices_map_fst s
  have hnodup : ((generate s).house_prices.map Prod.fst).Nodup := by
    rw [hfst]; decide
  have hdata : (ax6 s).data = (generate s).house_prices.map Prod.snd := by
    show cities.map (pricesFor (generate s)) = _
    rw [← hfst]
    exact map_find_eq_snd _ hnodup
  refine ⟨rfl, rfl, rfl, rfl, hfst, hdata, ?_, ?_⟩
  · rw [hdata, List.length_map, house_prices_length]
  · intro l hl
    rw [hdata] at hl
    obtain ⟨x, hx, hxl⟩ := List.mem_map.mp hl
    rw [← hxl]
    exact genPrices_snd_length _ _ x hx

/-- C8: if the font resource is absent, the configuration falls back to the
generic sans-serif family and registers nothing; if it is present, the font
file is registered and the specific family is selected.  Both branches
produce a configuration (the function is total — no error path exists). -/
theorem C8_font_fallback :
    fontSetup false = ⟨[], "sans-serif"⟩ ∧
    fontSetup true = ⟨[font_path], "WenQuanYi Micro Hei"⟩ ∧
    (∀ b : Bool, (fontSetup b).chinese_font = "WenQuanYi Micro Hei" ∨
      (fontSetup b).chinese_font = "sans-serif") := by
  refine ⟨rfl, rfl, ?_⟩
  decide

/-- C7: the scatter panel trend line is the ordinary-least-squares degree-1
fit over the full 80-point sample (not split by category) — its coefficients
are the normal-equation solution and minimize the sum of squared residuals
among all lines — it is drawn dashed, and it is evaluated on 100 points that
span exactly the observed x-range from min(ad_spend) to max(ad_spend). -/
theorem C7_trend_line (s : Nat) (a b : ℚ)
    (hd : 0 < disc (List.zip (generate s).ad_spend (generate s).sales)) :
    (trendLine s).coeffs = polyfit1 (List.zip (generate s).ad_spend (generate s).sales) ∧
    (List.zip (generate s).ad_spend (generate s).sales).length = 80 ∧
    SSE (List.zip (generate s).ad_spend (generate s).sales)
      (trendLine s).coeffs.1 (trendLine s).coeffs.2
      ≤ SSE (List.zip (generate s).ad_spend (generate s).sales) a b ∧
    (trendLine s).linestyle = "--" ∧
    (trendLine s).x_line
      = linspace (minQ (generate s).ad_spend) (maxQ (generate s).ad_spend) 100 ∧
    (trendLine s).x_line.length = 100 ∧
    (trendLine s).x_line.getD 0 0 = minQ (generate s).ad_spend ∧
    (trendLine s).x_line.getD 99 0 = maxQ (generate s).ad_spend ∧
    (∀ x ∈ (trendLine s).x_line,
      minQ (generate s).ad_spend ≤ x ∧ x ≤ maxQ (generate s).ad_spend) ∧
    (trendLine s).y_line = (trendLine s).x_line.map
      (fun x => (trendLine s).coeffs.1 * x + (trendLine s).coeffs.2) := by
  have hne : (generate s).ad_spend ≠ [] := by
    have h80 : (generate s).ad_spend.length = 80 := adSpend_length s
    intro he
    rw [he] at h80
    exact absurd h80 (by decide)
  have hab := minQ_le_maxQ _ hne
  have hxline : (trendLine s).x_line
      = linspace (minQ (generate s).ad_spend) (maxQ (generate s).ad_spend) 100 := rfl
  have hc : ((100 : Nat) : ℚ) - 1 = 99 := by norm_num
  refine ⟨rfl, ?_, ?_, rfl, hxline, ?_, ?_, ?_, ?_, rfl⟩
  · rw [List.length_zip, show (generate s).ad_spend.length = 80 from adSpend_length s,
      sales_length s]
    decide
  · exact sse_min _ hd a b
  · rw [hxline]
    simp [linspace]
  · rw [hxline, linspace_getD _ _ _ 0 (by norm_num), hc]
    norm_num
  · rw [hxline, linspace_getD _ _ _ 99 (by norm_num), hc]
    field_simp
  · intro x hx
    exact linspace_mem_bounds _ _ hab x (hxline ▸ hx)

/-- C7 witness: at seed 42 the discriminant is positive (computed from the
generated sample), and the theorem instantiated at the line y = 0. -/
theorem C7_trend_line_w :
    (0 < disc (List.zip (generate 42).ad_spend (generate 42).sales)) ∧
    ((trendLine 42).coeffs = polyfit1 (List.zip (generate 42).ad_spend (generate 42).sales) ∧
     (List.zip (generate 42).ad_spend (generate 42).sales).length = 80 ∧
     SSE (List.zip (generate 42).ad_spend (generate 42).sales)
       (trendLine 42).coeffs.1 (trendLine 42).coeffs.2
       ≤ SSE (List.zip (generate 42).ad_spend (generate 42).sales) 0 0 ∧
     (trendLine 42).linestyle = "--" ∧
     (trendLine 42).x_line
       = linspace (minQ (generate 42).ad_spend) (maxQ (generate 42).ad_spend) 100 ∧
     (trendLine 42).x_line.length = 100 ∧
     (trendLine 42).x_line.getD 0 0 = minQ (generate 42).ad_spend ∧
     (trendLine 42).x_line.getD 99 0 = maxQ (generate 42).ad_spend ∧
     (∀ x ∈ (trendLine 42).x_line,
       minQ (generate 42).ad_spend ≤ x ∧ x ≤ maxQ (generate 42).ad_spend) ∧
     (trendLine 42).y_line = (trendLine 42).x_line.map
       (fun x => (trendLine 42).coeffs.1 * x + (trendLine 42).coeffs.2)) :=
  ⟨disc42_pos, C7_trend_line 42 0 0 disc42_pos⟩

/-- C9: the exporter writes exactly one image at the fixed relative path
`visualization_dashboard.png`, at 150 dots per inch from the 22×15 figure
with solid background and tight bounding box, and prints exactly two
completion lines — the first naming the output path, the second the size and
resolution. -/
theorem C9_export :
    exportSpec.path = "visualization_dashboard.png" ∧
    exportSpec.dpi = 150 ∧
    exportSpec.figsize = (22, 15) ∧
    exportSpec.facecolor = "#f8f9fa" ∧
    exportSpec.bbox_inches = "tight" ∧
    outputLines.length = 2 ∧
    outputLines.getD 0 "" = "可视化仪表板已保存到: " ++ exportSpec.path ∧
    outputLines.getD 1 "" = "图片尺寸: 22x15 英寸, DPI: 150" := by
  decide

end Viz
